import Mathlib

/-!
Shallow embedding of `returns/maybe.py`: the two-variant `Maybe` container.

Modelling conventions:
* A Python value of static type `Optional[T]` is modelled as `Option α`;
  `Option.none` is the absence-sentinel `None`, and `Option.some a` is any
  other value.
* The private class `_Some` stores whatever inner value it is given, so its
  payload here is a full `Option α` (the public API only ever builds it with
  a non-`None` payload; `Maybe.validB` states that invariant).  `_Nothing`
  always stores `None` and carries no payload.
* `BaseContainer` structural equality (same class and equal inner values) is
  the derived decidable equality on the inductive type.
* A user-supplied callable that may raise is modelled in `Except ε`:
  `Except.error e` is a raised exception `e`, never caught by the container.
-/

namespace Returns

variable {α β γ ε : Type}

/-- The two concrete variants of the `Maybe` container: `_Nothing` (the empty
state, inner value fixed to `None`) and `_Some` (holds exactly one inner
value). -/
inductive Maybe (α : Type) : Type where
  | _Nothing : Maybe α
  | _Some (inner_value : Option α) : Maybe α
deriving DecidableEq

/-- The exception `UnwrapFailedError` from `returns.primitives.exceptions`,
carrying the offending container instance (`halted_container`). -/
structure UnwrapFailedError (α : Type) : Type where
  halted_container : Maybe α
deriving DecidableEq

/-- `Maybe.from_value`: `if inner_value is None: return _Nothing(inner_value)`
else `return _Some(inner_value)`. -/
def Maybe.from_value (inner_value : Option α) : Maybe α :=
  if inner_value.isNone then Maybe._Nothing else Maybe._Some inner_value

/-- `map`: `_Nothing.map` returns `self`; `_Some.map` returns
`Maybe.from_value(function(self._inner_value))`. -/
def Maybe.map (self : Maybe α) (function : Option α → Option β) : Maybe β :=
  match self with
  | Maybe._Nothing => Maybe._Nothing
  | Maybe._Some v => Maybe.from_value (function v)

/-- `map` when the callable may raise: the exception propagates unchanged
through the container operation; `_Nothing.map` never calls the function. -/
def Maybe.mapE (self : Maybe α) (function : Option α → Except ε (Option β)) :
    Except ε (Maybe β) :=
  match self with
  | Maybe._Nothing => Except.ok Maybe._Nothing
  | Maybe._Some v => (function v).map Maybe.from_value

/-- `bind`: `_Nothing.bind` returns `self`; `_Some.bind` returns
`function(self._inner_value)` directly, with no renormalization. -/
def Maybe.bind (self : Maybe α) (function : Option α → Maybe β) : Maybe β :=
  match self with
  | Maybe._Nothing => Maybe._Nothing
  | Maybe._Some v => function v

/-- `bind` when the callable may raise: the exception propagates unchanged;
`_Nothing.bind` never calls the function. -/
def Maybe.bindE (self : Maybe α) (function : Option α → Except ε (Maybe β)) :
    Except ε (Maybe β) :=
  match self with
  | Maybe._Nothing => Except.ok Maybe._Nothing
  | Maybe._Some v => function v

/-- `apply`: `_Nothing.apply` returns `self`; `_Some.apply` checks
`isinstance(container, self.success_type)` and, when it holds, returns
`self.map(container.unwrap())`; otherwise it returns `container` unchanged.
When the unwrapped inner value is `None` (a `_Some` built around `None`),
`map` would call `None` as a function: that `TypeError` is `Except.error ()`. -/
def Maybe.apply (self : Maybe α) (container : Maybe (Option α → Option β)) :
    Except Unit (Maybe β) :=
  match self with
  | Maybe._Nothing => Except.ok Maybe._Nothing
  | Maybe._Some v =>
    match container with
    | Maybe._Some (Option.some f) => Except.ok ((Maybe._Some v).map f)
    | Maybe._Some Option.none => Except.error ()
    | Maybe._Nothing => Except.ok Maybe._Nothing

/-- `value_or`: `_Nothing.value_or` returns the default value; `_Some.value_or`
returns the inner value. -/
def Maybe.value_or (self : Maybe α) (default_value : Option α) : Option α :=
  match self with
  | Maybe._Nothing => default_value
  | Maybe._Some v => v

/-- `or_else_call`: `_Some.or_else_call` returns the inner value without
touching the thunk; `_Nothing.or_else_call` returns `function()`, so an
exception raised by the thunk propagates unchanged. -/
def Maybe.or_else_call (self : Maybe α) (function : Unit → Except ε (Option α)) :
    Except ε (Option α) :=
  match self with
  | Maybe._Nothing => function ()
  | Maybe._Some v => Except.ok v

/-- `unwrap`: `_Some.unwrap` returns the inner value; `_Nothing.unwrap` raises
`UnwrapFailedError(self)`. -/
def Maybe.unwrap (self : Maybe α) : Except (UnwrapFailedError α) (Option α) :=
  match self with
  | Maybe._Nothing => Except.error ⟨Maybe._Nothing⟩
  | Maybe._Some v => Except.ok v

/-- `failure`: `_Nothing.failure` returns its inner value (always `None`);
`_Some.failure` raises `UnwrapFailedError(self)`. -/
def Maybe.failure (self : Maybe α) : Except (UnwrapFailedError α) (Option α) :=
  match self with
  | Maybe._Nothing => Except.ok Option.none
  | Maybe._Some v => Except.error ⟨Maybe._Some v⟩

/-- Modelled from the spec: the folding helper `iterable_kind` from
`returns._generated.iterable`, consumed by `Maybe.from_iterable` via
`dekind(iterable_kind(cls, inner_value))`, is not among the sources.  Per the
spec it scans the finite sequence in order, short-circuits to the absence
variant at the first `Empty`, and otherwise wraps the ordered sequence of
unwrapped payloads; the empty input yields `Present` of an empty sequence. -/
def Maybe.from_iterable : List (Maybe α) → Maybe (List (Option α))
  | [] => Maybe._Some (Option.some [])
  | Maybe._Nothing :: _ => Maybe._Nothing
  | Maybe._Some v :: rest =>
    match Maybe.from_iterable rest with
    | Maybe._Some (Option.some vs) => Maybe._Some (Option.some (v :: vs))
    | _ => Maybe._Nothing

/-- The public unit function `Some`: `return Maybe.from_value(inner_value)`. -/
def Some (inner_value : Option α) : Maybe α :=
  Maybe.from_value inner_value

/-- The public unit value `Nothing = _Nothing()`. -/
def Nothing : Maybe α :=
  Maybe._Nothing

/-- The decorator `maybe`: calls the wrapped function with the same arguments
and passes the raw result through `from_value`; it catches nothing, so an
exception raised by the wrapped function propagates unchanged. -/
def maybe {σ : Type} (function : σ → Except ε (Option α)) :
    σ → Except ε (Maybe α) :=
  fun args => (function args).map Maybe.from_value

/-- Containers reachable through the public API: a `_Some` built by
`from_value` never holds `None`. -/
def Maybe.validB : Maybe α → Bool
  | Maybe._Nothing => true
  | Maybe._Some v => v.isSome

/-- Claim C1: normalization at construction.  For every value that is not the
absence-sentinel, `from_value` builds `_Some` of it; `from_value None` is
`_Nothing`; the public constructor `Some` is exactly `from_value`, so
`Some None = Nothing`; and `from_value` never builds a `_Some` wrapping
`None`. -/
theorem from_value_normalization :
    (∀ a : α, Maybe.from_value (Option.some a) = Maybe._Some (Option.some a))
    ∧ Maybe.from_value (Option.none : Option α) = Maybe._Nothing
    ∧ (∀ x : Option α, Some x = Maybe.from_value x)
    ∧ Some (Option.none : Option α) = Nothing
    ∧ ∀ x : Option α, Maybe.from_value x ≠ Maybe._Some Option.none := by
  refine ⟨fun a => rfl, rfl, fun x => rfl, rfl, fun x h => ?_⟩
  cases x <;> simp [Maybe.from_value] at h

/-- Claim C2: `map` semantics on both variants.  `Some(v).map(f)` is
`from_value(f(v))`; in particular if `f(v)` is `None` the result is
`_Nothing`; and `_Nothing.map(f)` is `_Nothing` for every `f`, without
invoking `f` — even a function that always raises yields no exception. -/
theorem map_semantics :
    (∀ (a : α) (f : Option α → Option β),
      (Some (Option.some a)).map f = Maybe.from_value (f (Option.some a)))
    ∧ (∀ (a : α) (f : Option α → Option β), f (Option.some a) = Option.none →
      (Some (Option.some a)).map f = Maybe._Nothing)
    ∧ (∀ f : Option α → Option β,
      (Maybe._Nothing : Maybe α).map f = Maybe._Nothing)
    ∧ (∀ fE : Option α → Except ε (Option β),
      (Maybe._Nothing : Maybe α).mapE fE = Except.ok Maybe._Nothing) := by
  refine ⟨fun a f => rfl, fun a f h => ?_, fun f => rfl, fun fE => rfl⟩
  simp [Some, Maybe.from_value, Maybe.map, h]

theorem map_semantics_witness :
    ((fun _ : Option ℤ => (Option.none : Option ℤ)) (Option.some 3)
      = Option.none)
    ∧ (Some (Option.some (3 : ℤ))).map (fun _ => (Option.none : Option ℤ))
      = Maybe._Nothing :=
  ⟨rfl, (@map_semantics ℤ ℤ Unit).2.1 3 (fun _ => Option.none) rfl⟩

/-- Claim C3: raises-iff error contract.  `unwrap` on `_Nothing` raises
`UnwrapFailedError` carrying that container and on `_Some v` returns `v`
without raising; `failure` on `_Some v` raises `UnwrapFailedError` carrying
that container and on `_Nothing` returns `None` without raising. -/
theorem unwrap_failure_contract :
    (∀ v : Option α, (Maybe._Some v).unwrap = Except.ok v)
    ∧ (Maybe._Nothing : Maybe α).unwrap
      = Except.error ⟨Maybe._Nothing⟩
    ∧ (Maybe._Nothing : Maybe α).failure = Except.ok Option.none
    ∧ ∀ v : Option α, (Maybe._Some v).failure
      = Except.error ⟨Maybe._Some v⟩ :=
  ⟨fun v => rfl, rfl, rfl, fun v => rfl⟩

/-- Claim C4: `from_iterable` batch construction.  If every element is
`_Some` the result is `_Some` of the payloads in input order; if any element
is `_Nothing` the result is `_Nothing`; the empty input yields `_Some` of the
empty sequence. -/
theorem from_iterable_spec :
    (∀ vs : List (Option α),
      Maybe.from_iterable (vs.map Maybe._Some) = Maybe._Some (Option.some vs))
    ∧ (∀ l : List (Maybe α), Maybe._Nothing ∈ l →
      Maybe.from_iterable l = Maybe._Nothing)
    ∧ Maybe.from_iterable ([] : List (Maybe α))
      = Maybe._Some (Option.some []) := by
  refine ⟨fun vs => ?_, fun l h => ?_, rfl⟩
  · induction vs with
    | nil => rfl
    | cons v rest ih => simp [Maybe.from_iterable, ih]
  · induction l with
    | nil => cases h
    | cons c rest ih =>
      rcases List.mem_cons.mp h with h1 | h2
      · rw [← h1]; rfl
      · cases c with
        | _Nothing => rfl
        | _Some v => simp [Maybe.from_iterable, ih h2]

theorem from_iterable_spec_witness :
    (Maybe._Nothing ∈ [Maybe._Some (Option.some (1 : ℤ)), Maybe._Nothing])
    ∧ Maybe.from_iterable [Maybe._Some (Option.some (1 : ℤ)), Maybe._Nothing]
      = Maybe._Nothing
    ∧ Maybe.from_iterable
        [Maybe._Some (Option.some (1 : ℤ)), Maybe._Some (Option.some 2)]
      = Maybe._Some (Option.some [Option.some 1, Option.some 2]) :=
  ⟨by decide,
    from_iterable_spec.2.1 _ (by decide),
    from_iterable_spec.1 [Option.some 1, Option.some 2]⟩

/-- Claim C5: functor identity law.  For every container reachable through
the public API (either `_Nothing` or a `_Some` whose payload is not `None`),
mapping the identity function returns the container unchanged. -/
theorem functor_identity (x : Maybe α) (h : x.validB = true) :
    x.map (fun a => a) = x := by
  cases x with
  | _Nothing => rfl
  | _Some v =>
    cases v with
    | none => simp [Maybe.validB] at h
    | some a => rfl

theorem functor_identity_witness :
    ((Maybe._Some (Option.some (3 : ℤ))).validB = true)
    ∧ (Maybe._Some (Option.some (3 : ℤ))).map (fun a => a)
      = Maybe._Some (Option.some 3) :=
  ⟨rfl, functor_identity (Maybe._Some (Option.some 3)) rfl⟩

/-- Claim C6: functor composition law under the stated precondition.  When
neither `f` nor `g` ever produces the absence-sentinel, mapping `f` and then
`g` equals mapping their composition `a ↦ g (f a)`. -/
theorem functor_composition (x : Maybe α)
    (f : Option α → Option β) (g : Option β → Option γ)
    (hf : ∀ a, f a ≠ Option.none) (hg : ∀ b, g b ≠ Option.none) :
    (x.map f).map g = x.map (fun a => g (f a)) := by
  cases x with
  | _Nothing => rfl
  | _Some v =>
    rcases Option.ne_none_iff_exists.mp (hf v) with ⟨b, hb⟩
    rcases Option.ne_none_iff_exists.mp (hg (Option.some b)) with ⟨c, hc⟩
    simp [Maybe.map, Maybe.from_value, hb.symm, hc.symm]

theorem functor_composition_witness :
    (∀ a : Option ℤ, (fun _ : Option ℤ => Option.some (0 : ℤ)) a ≠ Option.none)
    ∧ (∀ b : Option ℤ, (fun _ : Option ℤ => Option.some (1 : ℤ)) b ≠ Option.none)
    ∧ ((Maybe._Some (Option.some (5 : ℤ))).map
        (fun _ : Option ℤ => Option.some (0 : ℤ))).map
        (fun _ : Option ℤ => Option.some (1 : ℤ))
      = (Maybe._Some (Option.some (5 : ℤ))).map
        (fun a => (fun _ : Option ℤ => Option.some (1 : ℤ))
          ((fun _ : Option ℤ => Option.some (0 : ℤ)) a)) :=
  ⟨fun a h => Option.noConfusion h, fun b h => Option.noConfusion h,
    functor_composition (Maybe._Some (Option.some 5)) _ _
      (fun a h => Option.noConfusion h) (fun b h => Option.noConfusion h)⟩

/-- Claim C7: monad identity laws for `bind`.  `_Some(v).bind(f)` is exactly
`f(v)` with no renormalization; `x.bind (a ↦ Some a)` returns `x` for every
container reachable through the public API; and `_Nothing.bind(f)` is
`_Nothing` for every `f`, without invoking `f` — even a function that always
raises yields no exception. -/
theorem bind_identities :
    (∀ (a : α) (f : Option α → Maybe β),
      (Maybe._Some (Option.some a)).bind f = f (Option.some a))
    ∧ (∀ x : Maybe α, x.validB = true → x.bind (fun a => Some a) = x)
    ∧ (∀ f : Option α → Maybe β,
      (Maybe._Nothing : Maybe α).bind f = Maybe._Nothing)
    ∧ (∀ fE : Option α → Except ε (Maybe β),
      (Maybe._Nothing : Maybe α).bindE fE = Except.ok Maybe._Nothing) := by
  refine ⟨fun a f => rfl, fun x h => ?_, fun f => rfl, fun fE => rfl⟩
  cases x with
  | _Nothing => rfl
  | _Some v =>
    cases v with
    | none => simp [Maybe.validB] at h
    | some a => rfl

theorem bind_identities_witness :
    ((Maybe._Some (Option.some (4 : ℤ))).validB = true)
    ∧ (Maybe._Some (Option.some (4 : ℤ))).bind (fun a => Some a)
      = Maybe._Some (Option.some 4) :=
  ⟨rfl, (@bind_identities ℤ ℤ Unit).2.1 (Maybe._Some (Option.some 4)) rfl⟩

/-- Claim C8: laziness of `or_else_call`.  On `_Some v` it returns `v` for
every thunk — including one that raises, so no exception appears; on
`_Nothing` it returns the thunk's result, and an exception the thunk raises
propagates unchanged. -/
theorem or_else_call_laziness :
    (∀ (v : Option α) (thunk : Unit → Except ε (Option α)),
      (Maybe._Some v).or_else_call thunk = Except.ok v)
    ∧ (∀ thunk : Unit → Except ε (Option α),
      (Maybe._Nothing : Maybe α).or_else_call thunk = thunk ())
    ∧ (∀ (thunk : Unit → Except ε (Option α)) (e : ε),
      thunk () = Except.error e →
      (Maybe._Nothing : Maybe α).or_else_call thunk = Except.error e) :=
  ⟨fun v thunk => rfl, fun thunk => rfl, fun thunk e h => h⟩

theorem or_else_call_laziness_witness :
    ((fun _ : Unit => (Except.error () : Except Unit (Option ℤ))) ()
      = Except.error ())
    ∧ (Maybe._Nothing : Maybe ℤ).or_else_call
        (fun _ => (Except.error () : Except Unit (Option ℤ)))
      = Except.error ()
    ∧ (Maybe._Some (Option.some (10 : ℤ))).or_else_call
        (fun _ => (Except.error () : Except Unit (Option ℤ)))
      = Except.ok (Option.some 10) :=
  ⟨rfl,
    (@or_else_call_laziness ℤ Unit).2.2 (fun _ => Except.error ()) () rfl,
    (@or_else_call_laziness ℤ Unit).1 (Option.some 10)
      (fun _ => Except.error ())⟩

/-- Claim C9: the adapter decorator `maybe`.  When the wrapped function
returns a raw result, the decorated call returns `from_value` of it — so
`_Nothing` for `None` and `_Some` of the raw result otherwise — and an
exception raised by the wrapped function propagates unchanged. -/
theorem maybe_decorator_spec {σ : Type} :
    (∀ (function : σ → Except ε (Option α)) (args : σ) (r : Option α),
      function args = Except.ok r →
      maybe function args = Except.ok (Maybe.from_value r))
    ∧ (∀ (function : σ → Except ε (Option α)) (args : σ) (e : ε),
      function args = Except.error e →
      maybe function args = Except.error e) := by
  constructor
  · intro function args r h
    simp [maybe, h, Except.map]
  · intro function args e h
    simp [maybe, h, Except.map]

theorem maybe_decorator_spec_witness :
    ((fun n : ℤ => if n = 0 then (Except.ok Option.none : Except Unit (Option ℤ))
        else Except.ok (Option.some n)) 0 = Except.ok Option.none)
    ∧ maybe (fun n : ℤ => if n = 0
          then (Except.ok Option.none : Except Unit (Option ℤ))
          else Except.ok (Option.some n)) 0
      = Except.ok Maybe._Nothing
    ∧ maybe (fun _ : ℤ => (Except.error () : Except Unit (Option ℤ))) 1
      = Except.error () :=
  ⟨rfl,
    maybe_decorator_spec.1 _ 0 Option.none rfl,
    maybe_decorator_spec.2 (fun _ => Except.error ()) 1 () rfl⟩

/-- Claim C10: `apply` on a `_Some` container passes a non-`_Some` argument
through verbatim — the `_Nothing` container comes back unchanged, with no
exception — and only when the argument is a `_Some` does it unwrap the inner
callable and delegate to `map`. -/
theorem apply_passthrough :
    (∀ v : Option α,
      (Maybe._Some v).apply (Maybe._Nothing : Maybe (Option α → Option β))
        = Except.ok Maybe._Nothing)
    ∧ (∀ (v : Option α) (f : Option α → Option β),
      (Maybe._Some v).apply (Maybe._Some (Option.some f))
        = Except.ok ((Maybe._Some v).map f)) :=
  ⟨fun v => rfl, fun v f => rfl⟩

end Returns
